import Mathlib

/-
  Verification of the CGammatoneFilter component
  (3dti_AudioToolkit, Common/GammatoneFilter.h).

  The repository provides only the header: the class declaration, its
  attribute list (lines 161-173) and the doc comments stating which calls
  report to the external error handler. The method bodies are not part of
  the sources, so every body below is modelled from the specification
  (spec.md sections 3, 4 and 7), while every signature, field and
  error-reporting contract comes from the header itself. Floating point
  values are modelled as real numbers; the sample buffers as lists of
  reals; the per-stage complex state as pairs of reals.
-/

namespace Common

/-- Result codes reported to the external error-handler sink.
Modelled from the spec: the exact codes are opaque to the core (spec section 6);
only success versus an invalid-parameter error is distinguished. -/
inductive TResultID where
  | OK : TResultID
  | ERROR_INVALID : TResultID
deriving DecidableEq

/-- Modelled from the spec: the body of Factorial is missing from the sources;
the spec asks for the exact integer factorial, with Factorial 0 = 1, but the
header declares the function as returning a C unsigned (32-bit), so every
multiplication is reduced modulo 2 to the 32. -/
def Factorial : Nat → Nat
  | 0 => 1
  | n + 1 => ((n + 1) * Factorial n) % 4294967296

noncomputable section

/-- The filter state: exactly the attribute list of the header (lines
161-173), with the four per-stage float arrays merged into two lists of
complex values (pairs of reals), as the spec describes the cascade state. -/
@[ext]
structure CGammatoneFilter where
  generalGain : ℝ
  samplingFreq : ℝ
  order : ℕ
  b : ℝ
  an : ℝ
  cn : ℝ
  f0 : ℝ
  phase : ℝ
  prevZ : List (ℝ × ℝ)
  prevW : List (ℝ × ℝ)

/-- Modelled from the spec: the closed-form order-dependent constants
(CalculateAn, CalculateCn and the two bandwidth-to-decay-rate conversion
factors) are declared by the spec (section 9) as not recoverable from the
available interface. Only their shape is specified: each is a pure function
of the order, and each bandwidth representation is a positive
order-dependent multiple of the decay rate. They are therefore modelled as
an abstract coefficient bundle of that shape. -/
structure GammatoneFormulas where
  CalculateAn : ℕ → ℝ
  CalculateCn : ℕ → ℝ
  bw3dBPerDecay : ℕ → ℝ
  erbPerDecay : ℕ → ℝ

/-- Getter for the sampling frequency (header line 79). -/
def GetSamplingFreq (st : CGammatoneFilter) : ℝ := st.samplingFreq

/-- Getter for the general gain (header line 91). -/
def GetGeneralGain (st : CGammatoneFilter) : ℝ := st.generalGain

/-- Getter for the order (header line 97). -/
def GetOrder (st : CGammatoneFilter) : ℕ := st.order

/-- Getter for the center frequency (header line 133). -/
def GetCenterFrequency (st : CGammatoneFilter) : ℝ := st.f0

/-- Modelled from the spec: body missing; the 3 dB bandwidth is the
order-dependent conversion factor times the internal decay rate
(spec section 4.1). Reports nothing (header line 107). -/
def Get3dBBandwidth (F : GammatoneFormulas) (st : CGammatoneFilter) : ℝ :=
  F.bw3dBPerDecay st.order * st.b

/-- Modelled from the spec: body missing; the equivalent rectangular
bandwidth is the order-dependent conversion factor times the internal decay
rate (spec section 4.1). Reports nothing (header line 119). -/
def GetERBBandwidth (F : GammatoneFormulas) (st : CGammatoneFilter) : ℝ :=
  F.erbPerDecay st.order * st.b

/-- Modelled from the spec: body missing; the Glasberg-Moore formula
ERB(f) = 24.7 * (4.37 * (f / 1000) + 1), a pure function of the frequency
alone (static in the header, line 146). -/
def GetERBOfHumanAuditoryFilter (f : ℝ) : ℝ :=
  24.7 * (4.37 * (f / 1000) + 1)

/-- Modelled from the spec: body missing; stores the new sampling frequency
after validating it at the boundary (spec section 7) and always reports to the
error handler: RESULT_OK on success, an error code on failure (header
lines 70-71). On an invalid argument the previous state is untouched. -/
def SetSamplingFreq (st : CGammatoneFilter) (f : ℝ) :
    CGammatoneFilter × TResultID :=
  if 0 < f then ({ st with samplingFreq := f }, TResultID.OK)
  else (st, TResultID.ERROR_INVALID)

/-- Modelled from the spec: body missing; pure scalar update, nothing
reported (header line 83), no validation required by the spec. -/
def SetGeneralGain (st : CGammatoneFilter) (g : ℝ) : CGammatoneFilter :=
  { st with generalGain := g }

/-- Modelled from the spec: body missing; recomputes the decay rate from the
3 dB bandwidth through the order-dependent conversion factor, preserving the
center frequency (spec section 4.3), validating at the boundary (spec
section 7). Nothing is ever reported to the error handler (header
line 101), hence the second component is always none. -/
def Set3dBBandwidth (F : GammatoneFormulas) (st : CGammatoneFilter)
    (bw : ℝ) : CGammatoneFilter × Option TResultID :=
  if 0 < bw then ({ st with b := bw / F.bw3dBPerDecay st.order }, none)
  else (st, none)

/-- Modelled from the spec: body missing; recomputes the decay rate from the
equivalent rectangular bandwidth, preserving the center frequency (spec
section 4.3), validating at the boundary (spec section 7). Nothing is ever
reported to the error handler (header line 113). -/
def SetERBBandwidth (F : GammatoneFormulas) (st : CGammatoneFilter)
    (erb : ℝ) : CGammatoneFilter × Option TResultID :=
  if 0 < erb then ({ st with b := erb / F.erbPerDecay st.order }, none)
  else (st, none)

/-- Modelled from the spec: body missing; updates the center frequency only,
leaving the decay rate unchanged (spec section 4.3), validating at the
boundary (spec section 7). Nothing is ever reported to the error handler
(header line 125). -/
def SetCenterFrequency (st : CGammatoneFilter) (f : ℝ) :
    CGammatoneFilter × Option TResultID :=
  if 0 < f then ({ st with f0 := f }, none) else (st, none)

/-- Modelled from the spec: convenience composition (header line 135, spec
section 4.3): set the center frequency, then set the ERB bandwidth to the
human-auditory-filter ERB at that frequency. -/
def SetFrequencyUsingERBOfHumanAuditoryFilter (F : GammatoneFormulas)
    (st : CGammatoneFilter) (f : ℝ) : CGammatoneFilter × Option TResultID :=
  SetERBBandwidth F (SetCenterFrequency st f).1 (GetERBOfHumanAuditoryFilter f)

/-- Modelled from the spec: the constructor body is missing; per the spec
lifecycle (section 3) it establishes order and center frequency as given,
sampling frequency 44100 (header line 48), gain 1, phase 0, zeroed cascade
state of length order, the order-only normalization constants, and then
derives the default bandwidth from the human-auditory-filter ERB model at
the given center frequency via SetERBBandwidth. Invalid construction
parameters (non-positive order or center frequency, spec section 7) are
reported as an error code. -/
def construct (F : GammatoneFormulas) (n : ℕ) (f : ℝ) :
    CGammatoneFilter × Option TResultID :=
  if 0 < n ∧ 0 < f then
    ((SetERBBandwidth F
        { generalGain := 1, samplingFreq := 44100, order := n, b := 0,
          an := F.CalculateAn n, cn := F.CalculateCn n, f0 := f, phase := 0,
          prevZ := List.replicate n ((0 : ℝ), (0 : ℝ)),
          prevW := List.replicate n ((0 : ℝ), (0 : ℝ)) }
        (GetERBOfHumanAuditoryFilter f)).1, none)
  else
    ({ generalGain := 1, samplingFreq := 44100, order := n, b := 0,
       an := F.CalculateAn n, cn := F.CalculateCn n, f0 := f, phase := 0,
       prevZ := List.replicate n ((0 : ℝ), (0 : ℝ)),
       prevW := List.replicate n ((0 : ℝ), (0 : ℝ)) },
      some TResultID.ERROR_INVALID)

/-- Complex multiplication on pairs of reals. -/
def cmul (a c : ℝ × ℝ) : ℝ × ℝ :=
  (a.1 * c.1 - a.2 * c.2, a.1 * c.2 + a.2 * c.1)

/-- Complex conjugate on pairs of reals. -/
def conjC (a : ℝ × ℝ) : ℝ × ℝ := (a.1, -a.2)

/-- Modelled from the spec: one-pole complex low-pass stage (spec
section 4.2 step 2): the previous stage output combined with the current
stage input, weighted by the per-sample smoothing coefficient. -/
def onePole (lam : ℝ) (wPrev u : ℝ × ℝ) : ℝ × ℝ :=
  (wPrev.1 + lam * (u.1 - wPrev.1), wPrev.2 + lam * (u.2 - wPrev.2))

/-- Modelled from the spec: the cascade of order sequential one-pole stages
(spec section 4.2 step 2). Returns the final stage output together with the
new per-stage previous-input and previous-output state lists (spec
section 4.2 step 6). -/
def runCascade (lam : ℝ) :
    (ℝ × ℝ) → List (ℝ × ℝ) → List (ℝ × ℝ) →
      (ℝ × ℝ) × List (ℝ × ℝ) × List (ℝ × ℝ)
  | u, _ :: zs, wPrev :: ws =>
      let w := onePole lam wPrev u
      let rest := runCascade lam w zs ws
      (rest.1, u :: rest.2.1, w :: rest.2.2)
  | u, _, _ => (u, [], [])

/-- Modelled from the spec: phase wraparound into a bounded range (spec
section 4.2 step 5), here the canonical representative in [0, 2 pi). -/
def wrapPhase (t : ℝ) : ℝ :=
  t - 2 * Real.pi * ((⌊t / (2 * Real.pi)⌋ : ℤ) : ℝ)

/-- Modelled from the spec: the per-sample algorithm of Process (spec
section 4.2): demodulate by the conjugate rotator, run the cascade using the
stored per-stage state and the decay rate and normalization weight, take the
real part after remodulation, scale by generalGain times the normalization
gain, advance and wrap the phase, and store the new per-stage state. -/
def processSample (st : CGammatoneFilter) (x : ℝ) : CGammatoneFilter × ℝ :=
  let rot : ℝ × ℝ := (Real.cos st.phase, Real.sin st.phase)
  let z : ℝ × ℝ := cmul (x, 0) (conjC rot)
  let lam : ℝ := 2 * Real.pi * st.b * st.cn / st.samplingFreq
  let res := runCascade lam z st.prevZ st.prevW
  let y : ℝ := st.generalGain * st.an * (cmul res.1 rot).1
  ({ st with
      phase := wrapPhase (st.phase + 2 * Real.pi * st.f0 / st.samplingFreq),
      prevZ := res.2.1,
      prevW := res.2.2 }, y)

/-- Modelled from the spec: the in-place Process overload (header line 66)
maps the per-sample algorithm over the buffer, threading the filter state
through each sample. Returns the new state and the filtered buffer. -/
def Process : CGammatoneFilter → List ℝ → CGammatoneFilter × List ℝ
  | st, [] => (st, [])
  | st, x :: xs =>
      ((Process (processSample st x).1 xs).1,
        (processSample st x).2 :: (Process (processSample st x).1 xs).2)

/-- Modelled from the spec: a Process call together with what it reports to
the error handler. The single-buffer in-place overload has no failing
precondition (the buffer-mismatch error case applies only to the two-buffer
overload, which the header keeps commented out), so nothing is reported. -/
def ProcessCall (st : CGammatoneFilter) (buf : List ℝ) :
    (CGammatoneFilter × List ℝ) × Option TResultID :=
  (Process st buf, none)

/-- A concrete coefficient bundle, used to instantiate hypotheses at
concrete inputs. -/
def F0 : GammatoneFormulas :=
  { CalculateAn := fun _ => 1, CalculateCn := fun _ => 1,
    bw3dBPerDecay := fun _ => 1, erbPerDecay := fun _ => 1 }

/-- A concrete filter state of order 4, used to instantiate theorems at
concrete inputs. -/
def st0 : CGammatoneFilter :=
  { generalGain := 1, samplingFreq := 44100, order := 4, b := 1, an := 1,
    cn := 1, f0 := 1000, phase := 0,
    prevZ := List.replicate 4 ((0 : ℝ), (0 : ℝ)),
    prevW := List.replicate 4 ((0 : ℝ), (0 : ℝ)) }

end

/-- Helper: a single processed sample never changes the order field. -/
theorem processSample_order (st : CGammatoneFilter) (x : ℝ) :
    ((processSample st x).1).order = st.order := rfl

/-- Helper: Process never changes the order field. -/
theorem Process_order (buf : List ℝ) (st : CGammatoneFilter) :
    ((Process st buf).1).order = st.order := by
  induction buf generalizing st with
  | nil => rfl
  | cons x xs ih => simp [Process, ih, processSample_order]

/-- C2: for every filter state and every input sequence split at any point
into two sub-buffers, processing the first and then the second from the
resulting state yields, as concatenated output and final state, exactly the
result of one Process call on the whole sequence, sample for sample. -/
theorem Process_append (st : CGammatoneFilter) (xs ys : List ℝ) :
    Process st (xs ++ ys) =
      ((Process (Process st xs).1 ys).1,
        (Process st xs).2 ++ (Process (Process st xs).1 ys).2) := by
  induction xs generalizing st with
  | nil => simp [Process]
  | cons x xs ih => simp [Process, ih]

/-- C4: setting the center frequency leaves the internal decay rate, and
hence both bandwidth getters, unchanged; conversely both bandwidth setters
leave the center frequency unchanged. -/
theorem param_independence (F : GammatoneFormulas) (st : CGammatoneFilter)
    (f bw erb : ℝ) :
    ((SetCenterFrequency st f).1).b = st.b ∧
    Get3dBBandwidth F (SetCenterFrequency st f).1 = Get3dBBandwidth F st ∧
    GetERBBandwidth F (SetCenterFrequency st f).1 = GetERBBandwidth F st ∧
    GetCenterFrequency (Set3dBBandwidth F st bw).1 = GetCenterFrequency st ∧
    GetCenterFrequency (SetERBBandwidth F st erb).1 = GetCenterFrequency st := by
  refine ⟨?_, ?_, ?_, ?_, ?_⟩
  · by_cases h : 0 < f <;> simp [SetCenterFrequency, h]
  · by_cases h : 0 < f <;>
      simp [SetCenterFrequency, Get3dBBandwidth, h]
  · by_cases h : 0 < f <;>
      simp [SetCenterFrequency, GetERBBandwidth, h]
  · by_cases h : 0 < bw <;>
      simp [Set3dBBandwidth, GetCenterFrequency, h]
  · by_cases h : 0 < erb <;>
      simp [SetERBBandwidth, GetCenterFrequency, h]

/-- C5: GetERBOfHumanAuditoryFilter is a pure function of the frequency
argument alone, equal to the Glasberg-Moore formula
24.7 * (4.37 * (f / 1000) + 1); at 1000 Hz it equals 132.639, at 250 Hz it
equals 51.68475, at 4000 Hz it equals 456.456. -/
theorem humanERB_formula :
    (∀ f : ℝ, GetERBOfHumanAuditoryFilter f = 24.7 * (4.37 * (f / 1000) + 1)) ∧
    GetERBOfHumanAuditoryFilter 1000 = 132.639 ∧
    GetERBOfHumanAuditoryFilter 250 = 51.68475 ∧
    GetERBOfHumanAuditoryFilter 4000 = 456.456 := by
  refine ⟨fun f => rfl, ?_, ?_, ?_⟩ <;>
    · unfold GetERBOfHumanAuditoryFilter
      norm_num

/-- C9: Process on a zero-length buffer is a no-op: the buffer stays empty,
the filter state is unchanged, and nothing is reported to the error
handler. -/
theorem ProcessCall_nil_noop (st : CGammatoneFilter) :
    ProcessCall st [] = ((st, []), none) := rfl

/-- C10: Process is deterministic: two runs from states that agree on every
stored field (order, samplingFreq, f0, b, an, cn, generalGain, phase and the
two cascade-state lists), given equal input buffers, produce equal output
buffers and equal resulting states; the result depends on nothing else. -/
theorem Process_deterministic (s1 s2 : CGammatoneFilter)
    (buf1 buf2 : List ℝ)
    (h1 : s1.generalGain = s2.generalGain)
    (h2 : s1.samplingFreq = s2.samplingFreq)
    (h3 : s1.order = s2.order)
    (h4 : s1.b = s2.b)
    (h5 : s1.an = s2.an)
    (h6 : s1.cn = s2.cn)
    (h7 : s1.f0 = s2.f0)
    (h8 : s1.phase = s2.phase)
    (h9 : s1.prevZ = s2.prevZ)
    (h10 : s1.prevW = s2.prevW)
    (hbuf : buf1 = buf2) :
    Process s1 buf1 = Process s2 buf2 := by
  have hs : s1 = s2 := by
    apply CGammatoneFilter.ext <;> assumption
  rw [hs, hbuf]

/-- Witness for C10 at a concrete state and buffer. -/
theorem Process_deterministic_witness :
    Process st0 [1] = Process st0 [1] :=
  Process_deterministic st0 st0 [1] [1] rfl rfl rfl rfl rfl rfl rfl rfl rfl
    rfl rfl

/-- C3: for every filter state (hence every valid order) and every positive
bandwidth, setting the 3 dB bandwidth and reading it back returns the value
set, and symmetrically for the ERB bandwidth: the getters exactly invert the
setters' bandwidth-to-decay-rate conversion, whenever the order-dependent
conversion factors are positive as the spec requires. -/
theorem bandwidth_roundTrip (F : GammatoneFormulas) (st : CGammatoneFilter)
    (bw erb : ℝ) (hbw : 0 < bw) (herb : 0 < erb)
    (h3 : 0 < F.bw3dBPerDecay st.order)
    (hE : 0 < F.erbPerDecay st.order) :
    Get3dBBandwidth F (Set3dBBandwidth F st bw).1 = bw ∧
    GetERBBandwidth F (SetERBBandwidth F st erb).1 = erb := by
  constructor
  · have h3' : F.bw3dBPerDecay st.order ≠ 0 := ne_of_gt h3
    simp [Get3dBBandwidth, Set3dBBandwidth, hbw]
    rw [mul_comm]
    exact div_mul_cancel₀ bw h3'
  · have hE' : F.erbPerDecay st.order ≠ 0 := ne_of_gt hE
    simp [GetERBBandwidth, SetERBBandwidth, herb]
    rw [mul_comm]
    exact div_mul_cancel₀ erb hE'

/-- Witness for C3 at a concrete bundle, state and bandwidths. -/
theorem bandwidth_roundTrip_witness :
    Get3dBBandwidth F0 (Set3dBBandwidth F0 st0 100).1 = 100 ∧
    GetERBBandwidth F0 (SetERBBandwidth F0 st0 50).1 = 50 :=
  bandwidth_roundTrip F0 st0 100 50 (by norm_num) (by norm_num)
    (by norm_num [F0]) (by norm_num [F0])

/-- Counterexample to C6 at two concrete invalid inputs: the bandwidth
setter at -1 reports nothing at all to the error handler (second component
none, exactly as the header, line 101, documents), not a descriptive error
code; and the convenience setter SetFrequencyUsingERBOfHumanAuditoryFilter
at the invalid center frequency -1 does not leave the state untouched: the
center-frequency update is rejected, yet the human-auditory-filter ERB at
-1 is still positive, so the decay rate is rewritten - a partial
mutation. -/
theorem invalid_argument_counterexample :
    Set3dBBandwidth F0 st0 (-1) = (st0, none) ∧
    ((SetFrequencyUsingERBOfHumanAuditoryFilter F0 st0 (-1)).1).b ≠ st0.b := by
  constructor
  · unfold Set3dBBandwidth
    rw [if_neg (by norm_num : ¬ (0 : ℝ) < -1)]
  · unfold SetFrequencyUsingERBOfHumanAuditoryFilter SetCenterFrequency
    rw [if_neg (by norm_num : ¬ (0 : ℝ) < -1)]
    unfold SetERBBandwidth GetERBOfHumanAuditoryFilter
    rw [if_pos (by norm_num : (0 : ℝ) < 24.7 * (4.37 * (-1 / 1000) + 1))]
    norm_num [st0, F0]

/-- C6 amended: the mutating calls that report to the error handler behave
as claimed: the constructor reports a descriptive error code on an invalid
argument (zero order or non-positive center frequency), and SetSamplingFreq
reports a descriptive error code on a non-positive sampling frequency while
leaving every observable field exactly as it was; the primitive setters
Set3dBBandwidth, SetERBBandwidth and SetCenterFrequency also leave every
observable field exactly as it was on a non-positive argument, but report
nothing to the error handler, as their header documentation states. The
convenience setter SetFrequencyUsingERBOfHumanAuditoryFilter is excluded:
the counterexample shows it rewrites the decay rate on an invalid center
frequency. -/
theorem invalid_mutating_call_contract (F : GammatoneFormulas)
    (st : CGammatoneFilter) (n : ℕ) (fc f bw erb cf : ℝ)
    (hc : ¬ (0 < n ∧ 0 < fc)) (hf : f ≤ 0) (hbw : bw ≤ 0)
    (herb : erb ≤ 0) (hcf : cf ≤ 0) :
    (construct F n fc).2 = some TResultID.ERROR_INVALID ∧
    SetSamplingFreq st f = (st, TResultID.ERROR_INVALID) ∧
    Set3dBBandwidth F st bw = (st, none) ∧
    SetERBBandwidth F st erb = (st, none) ∧
    SetCenterFrequency st cf = (st, none) := by
  refine ⟨?_, ?_, ?_, ?_, ?_⟩
  · unfold construct
    rw [if_neg hc]
  · simp [SetSamplingFreq, not_lt.mpr hf]
  · simp [Set3dBBandwidth, not_lt.mpr hbw]
  · simp [SetERBBandwidth, not_lt.mpr herb]
  · simp [SetCenterFrequency, not_lt.mpr hcf]

/-- Witness for the amended C6 at concrete invalid arguments: order 0 for
the constructor and negative values for every setter. -/
theorem invalid_mutating_call_contract_witness :
    (construct F0 0 1000).2 = some TResultID.ERROR_INVALID ∧
    SetSamplingFreq st0 (-1) = (st0, TResultID.ERROR_INVALID) ∧
    Set3dBBandwidth F0 st0 (-2) = (st0, none) ∧
    SetERBBandwidth F0 st0 (-3) = (st0, none) ∧
    SetCenterFrequency st0 (-4) = (st0, none) :=
  invalid_mutating_call_contract F0 st0 0 1000 (-1) (-2) (-3) (-4)
    (by norm_num) (by norm_num) (by norm_num) (by norm_num) (by norm_num)

/-- Counterexample to C7: at order 10 the normalization formulas need the
factorial of 2 * 10 = 20, and 20 factorial is at least 2 to the 32, so the
declared 32-bit unsigned return type wraps: Factorial 20 is not the exact
mathematical factorial of 20. -/
theorem Factorial_overflow_at_order_ten :
    Factorial (2 * 10) ≠ Nat.factorial (2 * 10) := by decide

/-- C7 amended: Factorial 0 = 1 and Factorial returns the exact mathematical
factorial for every argument up to 12, which covers both order and 2 * order
for every order up to 6; from order 7 on the 2 * order argument (14 and
beyond) overflows the 32-bit unsigned return type and wraps. -/
theorem Factorial_exact_small :
    Factorial 0 = 1 ∧
    (∀ n : Fin 13, Factorial n.val = Nat.factorial n.val) ∧
    Factorial (2 * 7) ≠ Nat.factorial (2 * 7) := by decide

/-- C8: constructing a filter with a valid order and center frequency
reports no error and establishes exactly the documented initial state: the
given order, the given center frequency, sampling frequency 44100, ERB
bandwidth equal to the human-auditory-filter ERB at the given center
frequency, general gain 1, phase 0 and zeroed cascade state of length
order; and the order is immutable under every setter and under Process. -/
theorem construct_initial_state (F : GammatoneFormulas) (n : ℕ)
    (f x g bw erb cf : ℝ) (buf : List ℝ)
    (hn : 0 < n) (hf : 0 < f) (hE : 0 < F.erbPerDecay n) :
    (construct F n f).2 = none ∧
    GetOrder (construct F n f).1 = n ∧
    GetCenterFrequency (construct F n f).1 = f ∧
    GetSamplingFreq (construct F n f).1 = 44100 ∧
    GetERBBandwidth F (construct F n f).1 = GetERBOfHumanAuditoryFilter f ∧
    GetGeneralGain (construct F n f).1 = 1 ∧
    ((construct F n f).1).phase = 0 ∧
    ((construct F n f).1).prevZ = List.replicate n (0, 0) ∧
    ((construct F n f).1).prevW = List.replicate n (0, 0) ∧
    GetOrder (SetSamplingFreq (construct F n f).1 x).1 = n ∧
    GetOrder (SetGeneralGain (construct F n f).1 g) = n ∧
    GetOrder (Set3dBBandwidth F (construct F n f).1 bw).1 = n ∧
    GetOrder (SetERBBandwidth F (construct F n f).1 erb).1 = n ∧
    GetOrder (SetCenterFrequency (construct F n f).1 cf).1 = n ∧
    GetOrder (Process (construct F n f).1 buf).1 = n := by
  have h1000 : (0 : ℝ) < 1000 := by norm_num
  have hdiv : 0 < f / 1000 := div_pos hf h1000
  have hERB : 0 < GetERBOfHumanAuditoryFilter f := by
    unfold GetERBOfHumanAuditoryFilter
    nlinarith
  have hc : construct F n f =
      ({ generalGain := 1, samplingFreq := 44100, order := n,
         b := GetERBOfHumanAuditoryFilter f / F.erbPerDecay n,
         an := F.CalculateAn n, cn := F.CalculateCn n, f0 := f, phase := 0,
         prevZ := List.replicate n ((0 : ℝ), (0 : ℝ)),
         prevW := List.replicate n ((0 : ℝ), (0 : ℝ)) }, none) := by
    unfold construct
    rw [if_pos ⟨hn, hf⟩]
    unfold SetERBBandwidth
    rw [if_pos hERB]
  have hE' : F.erbPerDecay n ≠ 0 := ne_of_gt hE
  refine ⟨?_, ?_, ?_, ?_, ?_, ?_, ?_, ?_, ?_, ?_, ?_, ?_, ?_, ?_, ?_⟩
  · rw [hc]
  · rw [hc]; rfl
  · rw [hc]; rfl
  · rw [hc]; rfl
  · rw [hc]
    show F.erbPerDecay n * (GetERBOfHumanAuditoryFilter f / F.erbPerDecay n)
      = GetERBOfHumanAuditoryFilter f
    rw [mul_comm]
    exact div_mul_cancel₀ _ hE'
  · rw [hc]; rfl
  · rw [hc]
  · rw [hc]
  · rw [hc]
  · by_cases hx : 0 < x <;> simp [hc, SetSamplingFreq, GetOrder, hx]
  · simp [hc, SetGeneralGain, GetOrder]
  · by_cases hx : 0 < bw <;> simp [hc, Set3dBBandwidth, GetOrder, hx]
  · by_cases hx : 0 < erb <;> simp [hc, SetERBBandwidth, GetOrder, hx]
  · by_cases hx : 0 < cf <;> simp [hc, SetCenterFrequency, GetOrder, hx]
  · rw [hc]
    show ((Process _ buf).1).order = n
    rw [Process_order]

/-- Witness for C8 at a concrete bundle, order 4 and 1000 Hz. -/
theorem construct_initial_state_witness :
    (construct F0 4 1000).2 = none ∧
    GetOrder (construct F0 4 1000).1 = 4 ∧
    GetCenterFrequency (construct F0 4 1000).1 = 1000 ∧
    GetSamplingFreq (construct F0 4 1000).1 = 44100 ∧
    GetERBBandwidth F0 (construct F0 4 1000).1
      = GetERBOfHumanAuditoryFilter 1000 ∧
    GetGeneralGain (construct F0 4 1000).1 = 1 ∧
    ((construct F0 4 1000).1).phase = 0 ∧
    ((construct F0 4 1000).1).prevZ = List.replicate 4 (0, 0) ∧
    ((construct F0 4 1000).1).prevW = List.replicate 4 (0, 0) ∧
    GetOrder (SetSamplingFreq (construct F0 4 1000).1 48000).1 = 4 ∧
    GetOrder (SetGeneralGain (construct F0 4 1000).1 2) = 4 ∧
    GetOrder (Set3dBBandwidth F0 (construct F0 4 1000).1 100).1 = 4 ∧
    GetOrder (SetERBBandwidth F0 (construct F0 4 1000).1 50).1 = 4 ∧
    GetOrder (SetCenterFrequency (construct F0 4 1000).1 500).1 = 4 ∧
    GetOrder (Process (construct F0 4 1000).1 [1]).1 = 4 :=
  construct_initial_state F0 4 1000 48000 2 100 50 500 [1]
    (by norm_num) (by norm_num) (by norm_num [F0])

end Common
